import Mathlib

/-!
Shallow embedding of the peer session manager of ahooneUI/BBA, file
src/rtc.js, class RTCManager.

Modelling decisions, recorded for the reader who diffs these definitions
against the JavaScript source:

* A JS Map with insertion order is modelled as an association list
  (List (String × _)) with unique keys; Map.get is lookupA, Map.set is
  setA (update in place when the key is present, append otherwise),
  Map.delete is delA.
* RTCPeerConnection and RTCDataChannel objects are stored inline in the
  two registries, carrying an allocation identifier (the id field) so
  that object identity survives registry overwrites.  Mutation of an
  object fetched from a Map is modelled by updating the entry holding it.
* Platform behaviour of the WebRTC API is embedded where the source
  relies on it: RTCPeerConnection.addIceCandidate rejects with
  InvalidStateError when no remote description is set or the connection
  is closed (the source catches this rejection and only logs it);
  RTCPeerConnection.close marks the connection closed and sets the ready
  state of every data channel created by that connection to closed
  (W3C close() algorithm), which the ownerPc field tracks.
* Events emitted through RTCManager.emit are recorded in an append-only
  log; the dispatcher itself (RTCManager.on / RTCManager.emit with
  user-supplied callbacks that may throw) is modelled separately below
  as runCallbacks / onEvent / emitEvent.  The channel.onmessage handler
  is modelled at the dispatcher level (onMessage), because its try/catch
  interacts with callback exceptions: an emit that throws inside the try
  block is caught and the catch block emits dataChannelBinary as well.
* JSON serialisation of outgoing messages is injective on the message
  domain and is abstracted away: a channel records the messages handed
  to its send method.  Inbound JSON parsing is abstracted as an explicit
  parse function argument (String → Option String).
* close tombstones: closedPcs / closedChans record the allocation ids of
  connection and channel objects that have been closed, so that closing
  remains observable after the registry entry is deleted.
-/

/-- Lookup in an association list: JS Map.get (first matching key). -/
def lookupA {α : Type} : List (String × α) → String → Option α
  | [], _ => none
  | e :: rest, k => if e.1 = k then some e.2 else lookupA rest k

/-- JS Map.set: update the entry in place when the key is present, append otherwise. -/
def setA {α : Type} (l : List (String × α)) (k : String) (v : α) : List (String × α) :=
  if l.any (fun e => e.1 = k) then
    l.map (fun e => (e.1, if e.1 = k then v else e.2))
  else
    l ++ [(k, v)]

/-- Mutation of the object stored under a key (the Map itself is unchanged). -/
def updA {α : Type} (l : List (String × α)) (k : String) (f : α → α) : List (String × α) :=
  l.map (fun e => (e.1, if e.1 = k then f e.2 else e.2))

/-- JS Map.delete. -/
def delA {α : Type} (l : List (String × α)) (k : String) : List (String × α) :=
  l.filter (fun e => e.1 ≠ k)

/-- Connection state of an RTCPeerConnection (pc.connectionState). -/
inductive ConnState
  | new
  | connecting
  | connected
  | disconnected
  | failed
  | closed
deriving DecidableEq

/-- Ready state of an RTCDataChannel (channel.readyState); opened stands for the string open. -/
inductive RState
  | connecting
  | opened
  | closing
  | closed
deriving DecidableEq

/-- Events fanned out through RTCManager.emit, as recorded in the event log. -/
inductive Ev
  | connectionStateChange (peerId : String) (st : ConnState)
  | peerDisconnected (peerId : String)
  | dataChannelMessage (peerId : String) (data : String)
  | dataChannelBinary (peerId : String) (payload : String)
deriving DecidableEq

/-- An RTCPeerConnection object: id is the allocation identifier, the other
fields are the platform state the source interacts with. -/
structure PC where
  id : Nat
  remoteDescriptionSet : Bool := false
  localDescriptionSet : Bool := false
  appliedCandidates : List String := []
  connState : ConnState := ConnState.new
deriving DecidableEq

/-- An RTCDataChannel object: ownerPc is the allocation id of the connection
that created it, sent records the messages handed to channel.send. -/
structure Chan where
  id : Nat
  ownerPc : Nat
  readyState : RState := RState.connecting
  sent : List String := []
deriving DecidableEq

/-- State of one RTCManager instance: the two registries (peerConnections and
dataChannels Maps of the source), an allocation counter, close tombstones and
the emitted event log. -/
structure RTCManager where
  nextId : Nat := 0
  peerConnections : List (String × PC) := []
  dataChannels : List (String × Chan) := []
  closedPcs : List Nat := []
  closedChans : List Nat := []
  log : List Ev := []
deriving DecidableEq

namespace RTCManager

/-- RTCManager.emit with log-observer semantics: the event is appended to the log. -/
def emitEv (s : RTCManager) (ev : Ev) : RTCManager :=
  { s with log := s.log ++ [ev] }

/-- RTCManager.createPeerConnection: allocates a fresh connection and registers
it under peerId (Map.set, overwriting any previous entry), returning the new
connection.  Track attachment and handler installation carry no registry state. -/
def createPeerConnection (s : RTCManager) (peerId : String) : RTCManager × PC :=
  let pc : PC := { id := s.nextId }
  ({ s with
      nextId := s.nextId + 1,
      peerConnections := setA s.peerConnections peerId pc }, pc)

/-- RTCManager.setupDataChannel: installs the channel handlers and registers the
channel under peerId (the handlers are the onMessage / channel-event functions). -/
def setupDataChannel (s : RTCManager) (peerId : String) (ch : Chan) : RTCManager :=
  { s with dataChannels := setA s.dataChannels peerId ch }

/-- RTCManager.createDataChannel: returns null when no connection is registered
for peerId; otherwise creates an ordered channel on that connection and runs
setupDataChannel on it. -/
def createDataChannel (s : RTCManager) (peerId : String) : RTCManager × Option Chan :=
  match lookupA s.peerConnections peerId with
  | none => (s, none)
  | some pc =>
    let ch : Chan := { id := s.nextId, ownerPc := pc.id }
    let s1 : RTCManager := { s with nextId := s.nextId + 1 }
    (setupDataChannel s1 peerId ch, some ch)

/-- Platform RTCPeerConnection.addIceCandidate on the connection registered for
peerId: applies the candidate when a remote description is set and the
connection is not closed, and rejects (Bool false) otherwise. -/
def pcAddIceCandidate (s : RTCManager) (peerId : String) (cand : String) :
    RTCManager × Bool :=
  match lookupA s.peerConnections peerId with
  | none => (s, false)
  | some pc =>
    if pc.remoteDescriptionSet ∧ pc.connState ≠ ConnState.closed then
      ({ s with
          peerConnections := updA s.peerConnections peerId
            (fun pc0 => { pc0 with appliedCandidates := pc0.appliedCandidates ++ [cand] }) },
        true)
    else (s, false)

/-- RTCManager.addIceCandidate: returns when no connection is registered for
peerId; otherwise tries the platform addIceCandidate inside try/catch, logging
and discarding the failure (the candidate is dropped, never queued). -/
def addIceCandidate (s : RTCManager) (peerId : String) (cand : String) : RTCManager :=
  match lookupA s.peerConnections peerId with
  | none => s
  | some _ => (pcAddIceCandidate s peerId cand).1

/-- Platform setRemoteDescription on the connection registered for peerId. -/
def pcSetRemoteDescription (s : RTCManager) (peerId : String) : RTCManager :=
  { s with
      peerConnections := updA s.peerConnections peerId
        (fun pc => { pc with remoteDescriptionSet := true }) }

/-- Platform setLocalDescription on the connection registered for peerId. -/
def pcSetLocalDescription (s : RTCManager) (peerId : String) : RTCManager :=
  { s with
      peerConnections := updA s.peerConnections peerId
        (fun pc => { pc with localDescriptionSet := true }) }

/-- RTCManager.handleOffer: reuses or creates the connection for peerId, sets
the remote description, then creates an answer and sets it locally (the answer
value itself is abstracted away). -/
def handleOffer (s : RTCManager) (peerId : String) : RTCManager :=
  let s1 := match lookupA s.peerConnections peerId with
    | some _ => s
    | none => (createPeerConnection s peerId).1
  pcSetLocalDescription (pcSetRemoteDescription s1 peerId) peerId

/-- RTCManager.handleAnswer: returns when no connection is registered for
peerId, otherwise sets the remote description. -/
def handleAnswer (s : RTCManager) (peerId : String) : RTCManager :=
  match lookupA s.peerConnections peerId with
  | none => s
  | some _ => pcSetRemoteDescription s peerId

/-- JavaScript runtime errors surfaced by the embedding. -/
inductive JsErr
  | typeError
deriving DecidableEq

/-- RTCManager.createOffer: the source reads const pc from the registry and, when
absent, calls createPeerConnection without assigning its result, so pc stays
undefined and the following pc.createOffer raises a TypeError (the fresh
connection is nevertheless registered).  When the connection exists, the offer
is created and set as the local description. -/
def createOffer (s : RTCManager) (peerId : String) : RTCManager × Except JsErr Unit :=
  match lookupA s.peerConnections peerId with
  | none => ((createPeerConnection s peerId).1, Except.error JsErr.typeError)
  | some _ => (pcSetLocalDescription s peerId, Except.ok ())

/-- RTCManager.sendMessage: false without side effect when the channel is absent
or not open, otherwise the serialised message is handed to channel.send and the
call returns true. -/
def sendMessage (s : RTCManager) (peerId : String) (msg : String) : RTCManager × Bool :=
  match lookupA s.dataChannels peerId with
  | some ch =>
    if ch.readyState = RState.opened then
      ({ s with
          dataChannels := updA s.dataChannels peerId
            (fun ch0 => { ch0 with sent := ch0.sent ++ [msg] }) }, true)
    else (s, false)
  | none => (s, false)

/-- One step of RTCManager.broadcast: channel.send when the ready state is open,
otherwise skip. -/
def chanDeliver (msg : String) (ch : Chan) : Chan :=
  if ch.readyState = RState.opened then { ch with sent := ch.sent ++ [msg] } else ch

/-- RTCManager.broadcast: iterates the dataChannels Map and sends the serialised
message on every channel whose ready state is open. -/
def broadcast (s : RTCManager) (msg : String) : RTCManager :=
  { s with dataChannels := s.dataChannels.map (fun e => (e.1, chanDeliver msg e.2)) }

/-- Object-level effect of RTCPeerConnection.close on a connection with the
given allocation id (identity on every other connection object). -/
def pcCloseObj (pcid : Nat) (pc : PC) : PC :=
  if pc.id = pcid then { pc with connState := ConnState.closed } else pc

/-- Object-level cascade of RTCPeerConnection.close onto the data channels the
closing connection created (identity on channels owned by other connections). -/
def pcCascadeChan (pcid : Nat) (ch : Chan) : Chan :=
  if ch.ownerPc = pcid then { ch with readyState := RState.closed } else ch

/-- Object-level effect of RTCDataChannel.close on a channel with the given
allocation id (the closing-to-closed transition is collapsed into closed). -/
def chanCloseObj (chid : Nat) (ch : Chan) : Chan :=
  if ch.id = chid then { ch with readyState := RState.closed } else ch

/-- Platform RTCPeerConnection.close on the connection object with allocation id
pcid: the connection becomes closed and every data channel created by it has its
ready state set to closed (W3C close() algorithm); both closures are tombstoned. -/
def pcClose (s : RTCManager) (pcid : Nat) : RTCManager :=
  { s with
      peerConnections := s.peerConnections.map (fun e => (e.1, pcCloseObj pcid e.2)),
      dataChannels := s.dataChannels.map (fun e => (e.1, pcCascadeChan pcid e.2)),
      closedPcs := s.closedPcs ++ [pcid],
      closedChans := s.closedChans ++
        ((s.dataChannels.filter (fun e => e.2.ownerPc = pcid)).map (fun e => e.2.id)) }

/-- Platform RTCDataChannel.close on the channel object with allocation id chid. -/
def chanClose (s : RTCManager) (chid : Nat) : RTCManager :=
  { s with
      dataChannels := s.dataChannels.map (fun e => (e.1, chanCloseObj chid e.2)),
      closedChans := s.closedChans ++ [chid] }

/-- First block of RTCManager.removePeer: fetch the registered connection and,
when present, close it and delete its registry entry. -/
def removePeerPcPhase (s : RTCManager) (peerId : String) : RTCManager :=
  match lookupA s.peerConnections peerId with
  | some pc =>
    let sc := pcClose s pc.id
    { sc with peerConnections := delA sc.peerConnections peerId }
  | none => s

/-- Second block of RTCManager.removePeer: fetch the registered channel and,
when present, close it and delete its registry entry. -/
def removePeerChanPhase (s : RTCManager) (peerId : String) : RTCManager :=
  match lookupA s.dataChannels peerId with
  | some ch =>
    let sc := chanClose s ch.id
    { sc with dataChannels := delA sc.dataChannels peerId }
  | none => s

/-- RTCManager.removePeer: closes and deletes the registered connection, then
closes and deletes the registered channel (each step skipped when absent). -/
def removePeer (s : RTCManager) (peerId : String) : RTCManager :=
  removePeerChanPhase (removePeerPcPhase s peerId) peerId

/-- RTCManager.handleDisconnection: emits peerDisconnected then removes the peer. -/
def handleDisconnection (s : RTCManager) (peerId : String) : RTCManager :=
  removePeer (emitEv s (Ev.peerDisconnected peerId)) peerId

/-- The pc.onconnectionstatechange handler installed by createPeerConnection,
fired after the platform moved the connection for peerId to state st: emits
connectionStateChange and, when the state is failed or disconnected, runs
handleDisconnection. -/
def fireConnectionStateChange (s : RTCManager) (peerId : String) (st : ConnState) :
    RTCManager :=
  match lookupA s.peerConnections peerId with
  | none => s
  | some _ =>
    let s1 : RTCManager := { s with
      peerConnections := updA s.peerConnections peerId (fun pc => { pc with connState := st }) }
    let s2 := emitEv s1 (Ev.connectionStateChange peerId st)
    if st = ConnState.failed ∨ st = ConnState.disconnected then
      handleDisconnection s2 peerId
    else s2

/-- RTCManager.closeAll: closes every registered connection (the channel Map is
not visited; channels owned by a closed connection are closed by the platform
cascade of pcClose), then clears both registries. -/
def closeAll (s : RTCManager) : RTCManager :=
  let s1 := s.peerConnections.foldl (fun acc e => pcClose acc e.2.id) s
  { s1 with peerConnections := [], dataChannels := [] }

end RTCManager

/-- A registered callback as the dispatcher model sees it: an identity and
whether invoking it throws. -/
structure Cb where
  id : Nat
  throws : Bool
deriving DecidableEq

/-- Array.prototype.forEach over the callback list, as used by RTCManager.emit:
each callback is invoked in order; a throwing callback is invoked, then its
exception aborts the iteration and propagates out of emit.  Returns the ids of
the callbacks that were invoked and whether an exception escaped. -/
def runCallbacks : List Cb → List Nat × Bool
  | [] => ([], false)
  | cb :: rest =>
    if cb.throws then ([cb.id], true)
    else
      let r := runCallbacks rest
      (cb.id :: r.1, r.2)

/-- RTCManager.on: create the (empty) callback list for the event on first
registration, then push the callback. -/
def onEvent (store : List (String × List Cb)) (ev : String) (cb : Cb) :
    List (String × List Cb) :=
  match lookupA store ev with
  | some cbs => setA store ev (cbs ++ [cb])
  | none => setA store ev [cb]

/-- RTCManager.emit: fetch the callback list for the event (empty when none is
registered) and forEach-invoke it. -/
def emitEvent (store : List (String × List Cb)) (ev : String) : List Nat × Bool :=
  runCallbacks ((lookupA store ev).getD [])

/-- The channel.onmessage handler installed by setupDataChannel, at the
dispatcher level: try JSON.parse (parse, returning none when parsing throws)
and emit dataChannelMessage; the catch block — reached when parsing throws, or
when a dataChannelMessage callback throws inside the try — emits
dataChannelBinary for the same payload.  Returns the invocation traces of the
structured and the binary callbacks, and whether an exception escaped the
handler (a throw from a binary callback is not caught by anything). -/
def onMessage (parse : String → Option String) (store : List (String × List Cb))
    (payload : String) : (List Nat × List Nat) × Bool :=
  match parse payload with
  | some _ =>
    let r := emitEvent store "dataChannelMessage"
    if r.2 then
      let r2 := emitEvent store "dataChannelBinary"
      ((r.1, r2.1), r2.2)
    else ((r.1, []), false)
  | none =>
    let r2 := emitEvent store "dataChannelBinary"
    (([], r2.1), r2.2)

/-! Concrete states used by the counterexamples and witnesses below. -/

/-- A freshly constructed RTCManager (empty registries, empty log). -/
def mgr0 : RTCManager := {}

/-- C1 scenario, step 1: a connection is created for peer a. -/
def c1s1 : RTCManager := (RTCManager.createPeerConnection mgr0 "a").1

/-- C1 scenario, step 2: an ICE candidate arrives before any remote description. -/
def c1s2 : RTCManager := RTCManager.addIceCandidate c1s1 "a" "cand1"

/-- C1 scenario, step 3: an offer is handled, setting the remote description. -/
def c1s3 : RTCManager := RTCManager.handleOffer c1s2 "a"

/-- C3 scenario, step 1: a connection is created for peer a. -/
def c3s1 : RTCManager := (RTCManager.createPeerConnection mgr0 "a").1

/-- C3 scenario, step 2: the transport reports the connection established. -/
def c3s2 : RTCManager := RTCManager.fireConnectionStateChange c3s1 "a" ConnState.connected

/-- C3 scenario, step 3: createPeerConnection is called again for peer a. -/
def c3r : RTCManager × PC := RTCManager.createPeerConnection c3s2 "a"

/-- A callback that throws when invoked. -/
def cbThrow : Cb := { id := 0, throws := true }

/-- A callback that returns normally. -/
def cbOk : Cb := { id := 1, throws := false }

/-- C2 scenario: two callbacks registered for event x, the throwing one first. -/
def c2store : List (String × List Cb) := onEvent (onEvent [] "x" cbThrow) "x" cbOk

/-- C9 scenario: a throwing structured-message callback and a normal binary
callback. -/
def c9store : List (String × List Cb) :=
  onEvent (onEvent [] "dataChannelMessage" cbThrow) "dataChannelBinary" cbOk

/-- C9 witness scenario: a normal structured-message callback and a normal
binary callback. -/
def c9storeOk : List (String × List Cb) :=
  onEvent (onEvent [] "dataChannelMessage" cbOk) "dataChannelBinary" cbOk

/-- C8 scenario, step 1: a connection (allocation id 0) is created for peer a. -/
def c8s1 : RTCManager := (RTCManager.createPeerConnection mgr0 "a").1

/-- C8 scenario, step 2: a data channel (allocation id 1, owned by connection 0)
is created for peer a. -/
def c8s2 : RTCManager := (RTCManager.createDataChannel c8s1 "a").1

/-- C8 scenario, step 3: createPeerConnection for peer a again silently replaces
the registered connection by a fresh one (allocation id 2); the registered
channel keeps its never-closed owner connection 0. -/
def c8s3 : RTCManager := (RTCManager.createPeerConnection c8s2 "a").1

/-- Connection object of peer a in the two-peer witness state. -/
def wPcA : PC := { id := 0, connState := ConnState.connected, remoteDescriptionSet := true }

/-- Connection object of peer b in the two-peer witness state. -/
def wPcB : PC := { id := 1, connState := ConnState.connected, remoteDescriptionSet := true }

/-- Open data channel of peer a, owned by the connection of peer a. -/
def wChA : Chan := { id := 2, ownerPc := 0, readyState := RState.opened }

/-- Open data channel of peer b, owned by the connection of peer b. -/
def wChB : Chan := { id := 3, ownerPc := 1, readyState := RState.opened }

/-- Closing data channel of peer c, owned by a connection of peer c. -/
def wChC : Chan := { id := 5, ownerPc := 4, readyState := RState.closing }

/-- Connection object of peer c in the three-peer witness state. -/
def wPcC : PC := { id := 4, connState := ConnState.connecting }

/-- Two-peer witness state: peers a and b, both connected with open channels. -/
def wMgr : RTCManager :=
  { nextId := 4,
    peerConnections := [("a", wPcA), ("b", wPcB)],
    dataChannels := [("a", wChA), ("b", wChB)] }

/-- Three-peer witness state: peers a and b with open channels, peer c with a
channel that is not open. -/
def wMgr3 : RTCManager :=
  { nextId := 6,
    peerConnections := [("a", wPcA), ("b", wPcB), ("c", wPcC)],
    dataChannels := [("a", wChA), ("b", wChB), ("c", wChC)] }

/-! Association list lemmas. -/

theorem lookupA_mapVal {α β : Type} (g : α → β) (l : List (String × α)) (k : String) :
    lookupA (l.map (fun e => (e.1, g e.2))) k = (lookupA l k).map g := by
  induction l with
  | nil => rfl
  | cons e rest ih =>
    by_cases h : e.1 = k <;> simp [lookupA, h, ih]

theorem lookupA_append_some {α : Type} {l : List (String × α)} {k : String} {v : α}
    (h : lookupA l k = some v) (l2 : List (String × α)) :
    lookupA (l ++ l2) k = some v := by
  induction l with
  | nil => simp [lookupA] at h
  | cons e rest ih =>
    by_cases he : e.1 = k <;> simp [lookupA, he] at h ⊢
    · exact h
    · exact ih h

theorem lookupA_append_none {α : Type} {l : List (String × α)} {k : String}
    (h : lookupA l k = none) (l2 : List (String × α)) :
    lookupA (l ++ l2) k = lookupA l2 k := by
  induction l with
  | nil => rfl
  | cons e rest ih =>
    by_cases he : e.1 = k <;> simp [lookupA, he] at h ⊢
    exact ih h

theorem lookupA_isSome_any {α : Type} (l : List (String × α)) (k : String) :
    (lookupA l k).isSome = l.any (fun e => e.1 = k) := by
  induction l with
  | nil => rfl
  | cons e rest ih =>
    by_cases he : e.1 = k <;> simp [lookupA, he, ih]

theorem lookupA_updA_self {α : Type} (l : List (String × α)) (k : String) (f : α → α) :
    lookupA (updA l k f) k = (lookupA l k).map f := by
  induction l with
  | nil => rfl
  | cons e rest ih =>
    unfold updA at ih ⊢
    by_cases he : e.1 = k
    · simp [lookupA, he]
    · simp [lookupA, he]
      exact ih

theorem lookupA_updA_ne {α : Type} (l : List (String × α)) {k k' : String}
    (hne : k' ≠ k) (f : α → α) :
    lookupA (updA l k f) k' = lookupA l k' := by
  induction l with
  | nil => rfl
  | cons e rest ih =>
    unfold updA at ih ⊢
    by_cases he : e.1 = k'
    · have hnk : ¬ e.1 = k := fun h2 => hne (he.symm.trans h2)
      simp [lookupA, he, hnk, hne]
    · simp [lookupA, he]
      exact ih

theorem lookupA_setA_self {α : Type} (l : List (String × α)) (k : String) (v : α) :
    lookupA (setA l k v) k = some v := by
  unfold setA
  by_cases hany : l.any (fun e => e.1 = k) = true
  · rw [if_pos hany]
    revert hany
    induction l with
    | nil =>
      intro hany
      simp at hany
    | cons e rest ih =>
      intro hany
      by_cases he : e.1 = k
      · simp [lookupA, he]
      · have h2 : rest.any (fun e => e.1 = k) = true := by simpa [he] using hany
        simp [lookupA, he]
        exact ih h2
  · rw [if_neg hany]
    have hnone : lookupA l k = none := by
      cases hcase : lookupA l k with
      | none => rfl
      | some v0 =>
        exfalso
        apply hany
        rw [← lookupA_isSome_any, hcase]
        rfl
    rw [lookupA_append_none hnone]
    simp [lookupA]

theorem lookupA_setA_ne {α : Type} (l : List (String × α)) {k k' : String}
    (hne : k' ≠ k) (v : α) :
    lookupA (setA l k v) k' = lookupA l k' := by
  unfold setA
  by_cases hany : l.any (fun e => e.1 = k) = true
  · rw [if_pos hany]
    clear hany
    induction l with
    | nil => rfl
    | cons e rest ih =>
      by_cases he : e.1 = k'
      · simp [lookupA, he, hne]
      · simp [lookupA, he]
        exact ih
  · rw [if_neg hany]
    cases hcase : lookupA l k' with
    | some v0 => rw [lookupA_append_some hcase]
    | none =>
      rw [lookupA_append_none hcase]
      simp [lookupA, Ne.symm hne]

theorem lookupA_delA_self {α : Type} (l : List (String × α)) (k : String) :
    lookupA (delA l k) k = none := by
  induction l with
  | nil => rfl
  | cons e rest ih =>
    by_cases he : e.1 = k
    · simpa [delA, List.filter_cons, he] using ih
    · simpa [delA, List.filter_cons, he, lookupA] using ih

theorem lookupA_delA_ne {α : Type} (l : List (String × α)) {k k' : String}
    (hne : k' ≠ k) :
    lookupA (delA l k) k' = lookupA l k' := by
  induction l with
  | nil => rfl
  | cons e rest ih =>
    by_cases hk : e.1 = k
    · have hnk : ¬ e.1 = k' := fun h2 => hne (h2.symm.trans hk)
      simpa [delA, List.filter_cons, hk, lookupA, hnk, Ne.symm hne] using ih
    · by_cases he : e.1 = k'
      · simp [delA, List.filter_cons, hk, lookupA, he, hne]
      · simpa [delA, List.filter_cons, hk, lookupA, he] using ih

/-- Membership of the entry found by lookupA. -/
theorem lookupA_mem {α : Type} {l : List (String × α)} {k : String} {v : α}
    (h : lookupA l k = some v) : (k, v) ∈ l := by
  induction l with
  | nil => simp [lookupA] at h
  | cons e rest ih =>
    by_cases he : e.1 = k
    · simp [lookupA, he] at h
      exact List.mem_cons.mpr (Or.inl (by cases e; simp at he h; simp [he, h]))
    · simp [lookupA, he] at h
      exact List.mem_cons.mpr (Or.inr (ih h))

/-! Claim theorems. -/

/-- C4: the claim that createOffer invoked for a peer id with no existing
session completes without an unhandled exception fails on the code: the source
reads const pc from the registry, calls createPeerConnection without assigning
its result, and then invokes pc.createOffer on undefined, raising a TypeError.
This theorem evaluates createOffer at the failing input (a fresh manager with no
session for p1) and shows the TypeError escaping. -/
theorem C4_createOffer_unknown_peer_raises :
    (RTCManager.createOffer mgr0 "p1").2 = Except.error RTCManager.JsErr.typeError := rfl

/-- C5: sendMessage returns false and performs no side effect when the data
channel for the peer is absent or not in the open state, and returns true and
delivers the message to exactly that peer's channel otherwise; the modelled
operation is a total function, so it never throws. -/
theorem C5_sendMessage_spec (s : RTCManager) (p msg : String) :
    (lookupA s.dataChannels p = none → RTCManager.sendMessage s p msg = (s, false))
    ∧ (∀ ch, lookupA s.dataChannels p = some ch → ch.readyState ≠ RState.opened →
        RTCManager.sendMessage s p msg = (s, false))
    ∧ (∀ ch, lookupA s.dataChannels p = some ch → ch.readyState = RState.opened →
        (RTCManager.sendMessage s p msg).2 = true
        ∧ lookupA (RTCManager.sendMessage s p msg).1.dataChannels p
            = some { ch with sent := ch.sent ++ [msg] }
        ∧ (∀ q, q ≠ p → lookupA (RTCManager.sendMessage s p msg).1.dataChannels q
            = lookupA s.dataChannels q)
        ∧ (RTCManager.sendMessage s p msg).1.peerConnections = s.peerConnections
        ∧ (RTCManager.sendMessage s p msg).1.log = s.log) := by
  refine ⟨?_, ?_, ?_⟩
  · intro h
    unfold RTCManager.sendMessage
    rw [h]
  · intro ch h hne
    unfold RTCManager.sendMessage
    rw [h]
    simp [hne]
  · intro ch h hop
    have hm : RTCManager.sendMessage s p msg
        = ({ s with
              dataChannels := updA s.dataChannels p
                (fun ch0 => { ch0 with sent := ch0.sent ++ [msg] }) }, true) := by
      unfold RTCManager.sendMessage
      rw [h]
      simp [hop]
    rw [hm]
    refine ⟨rfl, ?_, ?_, rfl, rfl⟩
    · rw [lookupA_updA_self, h]
      rfl
    · intro q hq
      show lookupA (updA s.dataChannels p
          (fun ch0 => { ch0 with sent := ch0.sent ++ [msg] })) q = lookupA s.dataChannels q
      exact lookupA_updA_ne _ hq _

/-- C5 witness: in the three-peer state, send to peer a (open channel) returns
true and appends to that channel, send to peer c (channel not open) returns
false with no state change. -/
theorem C5_sendMessage_witness :
    (RTCManager.sendMessage wMgr3 "a" "hi").2 = true
    ∧ lookupA (RTCManager.sendMessage wMgr3 "a" "hi").1.dataChannels "a"
        = some { wChA with sent := wChA.sent ++ ["hi"] }
    ∧ RTCManager.sendMessage wMgr3 "c" "hi" = (wMgr3, false) :=
  ⟨((C5_sendMessage_spec wMgr3 "a" "hi").2.2 wChA rfl rfl).1,
   ((C5_sendMessage_spec wMgr3 "a" "hi").2.2 wChA rfl rfl).2.1,
   (C5_sendMessage_spec wMgr3 "c" "hi").2.1 wChC rfl (by decide)⟩

/-- C6: broadcast delivers the message to exactly those peers whose data channel
is open at the time of the call: an open channel receives the message appended,
a non-open channel and an absent entry are left unchanged, and nothing else in
the manager state changes. -/
theorem C6_broadcast_spec (s : RTCManager) (msg p : String) :
    (lookupA s.dataChannels p = none →
        lookupA (RTCManager.broadcast s msg).dataChannels p = none)
    ∧ (∀ ch, lookupA s.dataChannels p = some ch → ch.readyState = RState.opened →
        lookupA (RTCManager.broadcast s msg).dataChannels p
          = some { ch with sent := ch.sent ++ [msg] })
    ∧ (∀ ch, lookupA s.dataChannels p = some ch → ch.readyState ≠ RState.opened →
        lookupA (RTCManager.broadcast s msg).dataChannels p = some ch)
    ∧ (RTCManager.broadcast s msg).peerConnections = s.peerConnections
    ∧ (RTCManager.broadcast s msg).log = s.log := by
  have hb : lookupA (RTCManager.broadcast s msg).dataChannels p
      = (lookupA s.dataChannels p).map (RTCManager.chanDeliver msg) := by
    unfold RTCManager.broadcast
    exact lookupA_mapVal (RTCManager.chanDeliver msg) s.dataChannels p
  refine ⟨?_, ?_, ?_, rfl, rfl⟩
  · intro h
    rw [hb, h]
    rfl
  · intro ch h hop
    rw [hb, h]
    simp [RTCManager.chanDeliver, hop]
  · intro ch h hne
    rw [hb, h]
    simp [RTCManager.chanDeliver, hne]

/-- C6 witness: broadcasting in the three-peer state delivers to the open
channels of peers a and b, leaves the non-open channel of peer c unchanged, and
leaves an unregistered peer absent. -/
theorem C6_broadcast_witness :
    lookupA (RTCManager.broadcast wMgr3 "m").dataChannels "a"
        = some { wChA with sent := wChA.sent ++ ["m"] }
    ∧ lookupA (RTCManager.broadcast wMgr3 "m").dataChannels "c" = some wChC
    ∧ lookupA (RTCManager.broadcast wMgr3 "m").dataChannels "zz" = none :=
  ⟨(C6_broadcast_spec wMgr3 "m" "a").2.1 wChA rfl rfl,
   (C6_broadcast_spec wMgr3 "m" "c").2.2.1 wChC rfl (by decide),
   (C6_broadcast_spec wMgr3 "m" "zz").1 rfl⟩

/-- C9 counterexample: a payload that parses, with a structured-message callback
that throws and a binary callback registered.  The structured callback is
invoked inside the try block, its exception is caught by the catch block, and
the binary callback is then invoked for the same payload — both handlers
receive it, contradicting the exactly-one clause of the claim. -/
theorem C9_counterexample :
    onMessage (fun s => some s) c9store "pay" = (([0], [1]), false)
    ∧ (onMessage (fun s => some s) c9store "pay").1.1 ≠ []
    ∧ (onMessage (fun s => some s) c9store "pay").1.2 ≠ [] :=
  ⟨rfl, by decide, by decide⟩

/-- C9 corrected claim: a payload that fails to parse is delivered only to the
binary handlers; a payload that parses is delivered to the structured handlers,
and the binary handlers receive nothing exactly when no structured callback
throws — when one does throw, the catch block delivers the same payload to the
binary handlers as well, so exactly one of the two handler groups receives the
payload only on the throw-free paths. -/
theorem C9_onMessage_dispatch (parse : String → Option String)
    (store : List (String × List Cb)) (payload : String) :
    (parse payload = none →
      (onMessage parse store payload).1.1 = []
      ∧ (onMessage parse store payload).1.2 = (emitEvent store "dataChannelBinary").1)
    ∧ (∀ d, parse payload = some d →
        (onMessage parse store payload).1.1 = (emitEvent store "dataChannelMessage").1
        ∧ ((emitEvent store "dataChannelMessage").2 = false →
            (onMessage parse store payload).1.2 = [])
        ∧ ((emitEvent store "dataChannelMessage").2 = true →
            (onMessage parse store payload).1.2
              = (emitEvent store "dataChannelBinary").1)) := by
  constructor
  · intro h
    unfold onMessage
    rw [h]
    exact ⟨rfl, rfl⟩
  · intro d h
    unfold onMessage
    rw [h]
    refine ⟨?_, ?_, ?_⟩
    · by_cases h2 : (emitEvent store "dataChannelMessage").2 = true
      · simp [h2]
      · simp [h2]
    · intro h2
      simp [h2]
    · intro h2
      simp [h2]

/-- C9 witness: a failing parse reaches only the binary handler, a successful
parse with a well-behaved structured callback reaches only the structured
handler, and a successful parse with a throwing structured callback reaches the
binary handler too. -/
theorem C9_witness :
    (onMessage (fun _ => none) c9storeOk "pay").1.1 = []
    ∧ (onMessage (fun s => some s) c9storeOk "pay").1.2 = []
    ∧ (onMessage (fun s => some s) c9store "pay").1.2
        = (emitEvent c9store "dataChannelBinary").1 :=
  ⟨((C9_onMessage_dispatch (fun _ => none) c9storeOk "pay").1 rfl).1,
   ((C9_onMessage_dispatch (fun s => some s) c9storeOk "pay").2 "pay" rfl).2.1 rfl,
   ((C9_onMessage_dispatch (fun s => some s) c9store "pay").2 "pay" rfl).2.2 rfl⟩

/-- C10: createDataChannel for a peer id with no registered connection returns
null and leaves the whole manager state unchanged. -/
theorem C10_createDataChannel_unknown (s : RTCManager) (p : String)
    (h : lookupA s.peerConnections p = none) :
    RTCManager.createDataChannel s p = (s, none) := by
  unfold RTCManager.createDataChannel
  rw [h]

/-- C10 witness: on a fresh manager, createDataChannel for an unknown peer id is
a no-op returning null. -/
theorem C10_witness : RTCManager.createDataChannel mgr0 "zz" = (mgr0, none) :=
  C10_createDataChannel_unknown mgr0 "zz" rfl

/-- Invocation trace of forEach-style emission: the non-throwing prefix followed
by the first throwing callback when one exists. -/
theorem runCallbacks_fst (cbs : List Cb) :
    (runCallbacks cbs).1
      = (cbs.takeWhile (fun c => !c.throws)).map Cb.id
        ++ ((cbs.find? (fun c => c.throws)).map Cb.id).toList := by
  induction cbs with
  | nil => rfl
  | cons cb rest ih =>
    by_cases h : cb.throws = true
    · simp [runCallbacks, h, List.takeWhile_cons, List.find?_cons]
    · simp [runCallbacks, h, List.takeWhile_cons, List.find?_cons, ih]

/-- Whether forEach-style emission lets an exception escape: exactly when some
registered callback throws. -/
theorem runCallbacks_snd (cbs : List Cb) :
    (runCallbacks cbs).2 = cbs.any (fun c => c.throws) := by
  induction cbs with
  | nil => rfl
  | cons cb rest ih =>
    by_cases h : cb.throws = true
    · simp [runCallbacks, h]
    · simp [runCallbacks, h, ih]

/-- C2 counterexample: two callbacks are registered for event x, the first one
throwing; emission invokes only the first callback (trace [0]) and the
exception escapes, so the second registered callback never runs — contrary to
the per-callback isolation stated by the claim. -/
theorem C2_counterexample :
    emitEvent c2store "x" = ([0], true)
    ∧ (lookupA c2store "x").map List.length = some 2 := ⟨rfl, rfl⟩

/-- C2 corrected claim: emission invokes the callbacks registered for the event
synchronously in registration order, but only up to and including the first
callback that throws — the exception aborts the forEach iteration and escapes
emit, so callbacks registered later do not run; when no registered callback
throws, every callback is invoked in registration order.  Registration appends,
preserving order. -/
theorem C2_emit_stops_at_first_throw (store : List (String × List Cb)) (ev : String) :
    (emitEvent store ev).1
      = (((lookupA store ev).getD []).takeWhile (fun c => !c.throws)).map Cb.id
        ++ ((((lookupA store ev).getD []).find? (fun c => c.throws)).map Cb.id).toList
    ∧ (emitEvent store ev).2 = ((lookupA store ev).getD []).any (fun c => c.throws)
    ∧ (∀ cb, lookupA (onEvent store ev cb) ev
        = some ((lookupA store ev).getD [] ++ [cb])) := by
  refine ⟨runCallbacks_fst _, runCallbacks_snd _, ?_⟩
  intro cb
  unfold onEvent
  cases h : lookupA store ev with
  | some cbs =>
    rw [lookupA_setA_self]
    simp [h]
  | none =>
    rw [lookupA_setA_self]
    simp [h]

/-- C1 counterexample: concrete run — create the connection for peer a, add an
ICE candidate while no remote description is set, then handle an offer (the
remote description becomes set).  The applied-candidate sequence of peer a is
empty afterwards: the early candidate was dropped at arrival (there is no
pendingIceCandidates buffer) and is not applied when the remote description
becomes set, contradicting the claimed buffering and queue drain. -/
theorem C1_counterexample :
    (lookupA c1s3.peerConnections "a").map PC.remoteDescriptionSet = some true
    ∧ (lookupA c1s3.peerConnections "a").map PC.appliedCandidates = some []
    ∧ (lookupA c1s3.peerConnections "a").map PC.appliedCandidates ≠ some ["cand1"] := by
  refine ⟨rfl, rfl, ?_⟩
  intro hc
  have hrfl : (lookupA c1s3.peerConnections "a").map PC.appliedCandidates
      = some [] := rfl
  exact absurd (hrfl.symm.trans hc) (by decide)

/-- C1 corrected claim: the code maintains no pending ICE candidate buffer.
addIceCandidate applies the candidate immediately — appended to the applied
sequence — exactly when the peer has a registered connection whose remote
description is set and which is not closed; in every other case (unknown peer,
or the platform rejection caught by the try/catch and only logged) the manager
state is entirely unchanged and the candidate is dropped. -/
theorem C1_addIceCandidate_immediate_or_dropped (s : RTCManager) (p cand : String) :
    (lookupA s.peerConnections p = none → RTCManager.addIceCandidate s p cand = s)
    ∧ (∀ pc, lookupA s.peerConnections p = some pc →
        ((pc.remoteDescriptionSet = true ∧ pc.connState ≠ ConnState.closed) →
          lookupA (RTCManager.addIceCandidate s p cand).peerConnections p
            = some { pc with appliedCandidates := pc.appliedCandidates ++ [cand] }
          ∧ (∀ q, q ≠ p →
              lookupA (RTCManager.addIceCandidate s p cand).peerConnections q
                = lookupA s.peerConnections q)
          ∧ (RTCManager.addIceCandidate s p cand).dataChannels = s.dataChannels
          ∧ (RTCManager.addIceCandidate s p cand).log = s.log)
        ∧ (¬(pc.remoteDescriptionSet = true ∧ pc.connState ≠ ConnState.closed) →
          RTCManager.addIceCandidate s p cand = s)) := by
  refine ⟨?_, ?_⟩
  · intro h
    unfold RTCManager.addIceCandidate
    rw [h]
  · intro pc h
    constructor
    · intro hc
      have hm : RTCManager.addIceCandidate s p cand
          = { s with
                peerConnections := updA s.peerConnections p
                  (fun pc0 => { pc0 with
                    appliedCandidates := pc0.appliedCandidates ++ [cand] }) } := by
        unfold RTCManager.addIceCandidate RTCManager.pcAddIceCandidate
        rw [h]
        simp [hc.1, hc.2]
      rw [hm]
      refine ⟨?_, ?_, rfl, rfl⟩
      · show lookupA (updA s.peerConnections p
            (fun pc0 => { pc0 with
              appliedCandidates := pc0.appliedCandidates ++ [cand] })) p
          = some { pc with appliedCandidates := pc.appliedCandidates ++ [cand] }
        rw [lookupA_updA_self, h]
        rfl
      · intro q hq
        show lookupA (updA s.peerConnections p
            (fun pc0 => { pc0 with
              appliedCandidates := pc0.appliedCandidates ++ [cand] })) q
          = lookupA s.peerConnections q
        exact lookupA_updA_ne _ hq _
    · intro hc
      unfold RTCManager.addIceCandidate RTCManager.pcAddIceCandidate
      rw [h]
      simp only []
      rw [if_neg ?_]
      intro hcontra
      exact hc ⟨hcontra.1, hcontra.2⟩

/-- C1 witness: in the two-peer state (remote description set for peer a), an
arriving candidate is applied immediately to the connection of peer a. -/
theorem C1_witness :
    lookupA (RTCManager.addIceCandidate wMgr "a" "c9").peerConnections "a"
      = some { wPcA with appliedCandidates := wPcA.appliedCandidates ++ ["c9"] } :=
  (((C1_addIceCandidate_immediate_or_dropped wMgr "a" "c9").2 wPcA rfl).1 (by decide)).1

/-- C3 counterexample: peer a holds a session in the non-terminal Connected
state (allocation id 0); calling createPeerConnection for a again neither fails
nor returns the existing session: it allocates a brand-new connection (id 1)
and silently replaces the registry entry. -/
theorem C3_counterexample :
    (lookupA c3s2.peerConnections "a").map PC.connState = some ConnState.connected
    ∧ (lookupA c3s2.peerConnections "a").map PC.id = some 0
    ∧ (lookupA c3r.1.peerConnections "a").map PC.id = some 1
    ∧ c3r.2.id = 1 := ⟨rfl, rfl, rfl, rfl⟩

/-- C3 corrected claim: createPeerConnection never fails with AlreadyExists and
never returns an existing session: it always allocates a brand-new connection
(fresh allocation id nextId, initial state) and overwrites any existing registry
entry for the peer id, leaving every other entry unchanged; when the existing
entry had an older allocation id, the stored connection after the call is a
different object from the one stored before. -/
theorem C3_createPeerConnection_overwrites (s : RTCManager) (p : String) :
    (RTCManager.createPeerConnection s p).2 = { id := s.nextId }
    ∧ lookupA (RTCManager.createPeerConnection s p).1.peerConnections p
        = some { id := s.nextId }
    ∧ (∀ q, q ≠ p →
        lookupA (RTCManager.createPeerConnection s p).1.peerConnections q
          = lookupA s.peerConnections q)
    ∧ (∀ pc0, lookupA s.peerConnections p = some pc0 → pc0.id < s.nextId →
        ({ id := s.nextId } : PC) ≠ pc0) := by
  refine ⟨rfl, ?_, ?_, ?_⟩
  · show lookupA (setA s.peerConnections p { id := s.nextId }) p = some { id := s.nextId }
    exact lookupA_setA_self _ _ _
  · intro q hq
    show lookupA (setA s.peerConnections p { id := s.nextId }) q = lookupA s.peerConnections q
    exact lookupA_setA_ne _ hq _
  · intro pc0 hpc0 hlt heq
    have hid : ({ id := s.nextId } : PC).id = pc0.id := congrArg PC.id heq
    simp at hid
    omega

/-- C3 witness: in the two-peer state, createPeerConnection for peer a replaces
the registered session of peer a with a fresh connection distinct from it. -/
theorem C3_witness :
    lookupA (RTCManager.createPeerConnection wMgr "a").1.peerConnections "a"
      = some { id := wMgr.nextId }
    ∧ ({ id := wMgr.nextId } : PC) ≠ wPcA :=
  ⟨(C3_createPeerConnection_overwrites wMgr "a").2.1,
   (C3_createPeerConnection_overwrites wMgr "a").2.2.2 wPcA rfl (by decide)⟩

/-! Lemmas about the close operations and the two removePeer phases. -/

theorem pcCloseObj_id_ne {pcid : Nat} {pc : PC} (h : pc.id ≠ pcid) :
    RTCManager.pcCloseObj pcid pc = pc := if_neg h

theorem pcCascadeChan_owner_ne {pcid : Nat} {ch : Chan} (h : ch.ownerPc ≠ pcid) :
    RTCManager.pcCascadeChan pcid ch = ch := if_neg h

theorem chanCloseObj_id_ne {chid : Nat} {ch : Chan} (h : ch.id ≠ chid) :
    RTCManager.chanCloseObj chid ch = ch := if_neg h

theorem pcCascadeChan_id (pcid : Nat) (ch : Chan) :
    (RTCManager.pcCascadeChan pcid ch).id = ch.id := by
  unfold RTCManager.pcCascadeChan
  by_cases h : ch.ownerPc = pcid
  · simp [h]
  · simp [h]

theorem pcCascadeChan_ownerPc (pcid : Nat) (ch : Chan) :
    (RTCManager.pcCascadeChan pcid ch).ownerPc = ch.ownerPc := by
  unfold RTCManager.pcCascadeChan
  by_cases h : ch.ownerPc = pcid
  · simp [h]
  · simp [h]

theorem lookupA_pcClose_pcs (s : RTCManager) (pcid : Nat) (k : String) :
    lookupA (RTCManager.pcClose s pcid).peerConnections k
      = (lookupA s.peerConnections k).map (RTCManager.pcCloseObj pcid) :=
  lookupA_mapVal _ _ _

theorem lookupA_pcClose_dcs (s : RTCManager) (pcid : Nat) (k : String) :
    lookupA (RTCManager.pcClose s pcid).dataChannels k
      = (lookupA s.dataChannels k).map (RTCManager.pcCascadeChan pcid) :=
  lookupA_mapVal _ _ _

theorem lookupA_chanClose_dcs (s : RTCManager) (chid : Nat) (k : String) :
    lookupA (RTCManager.chanClose s chid).dataChannels k
      = (lookupA s.dataChannels k).map (RTCManager.chanCloseObj chid) :=
  lookupA_mapVal _ _ _

theorem removePeerPcPhase_pcs_self (s : RTCManager) (p : String) :
    lookupA (RTCManager.removePeerPcPhase s p).peerConnections p = none := by
  unfold RTCManager.removePeerPcPhase
  cases h : lookupA s.peerConnections p with
  | none => exact h
  | some pc => exact lookupA_delA_self _ _

theorem removePeerPcPhase_none {s : RTCManager} {p : String}
    (h : lookupA s.peerConnections p = none) :
    RTCManager.removePeerPcPhase s p = s := by
  unfold RTCManager.removePeerPcPhase
  rw [h]

theorem removePeerPcPhase_log (s : RTCManager) (p : String) :
    (RTCManager.removePeerPcPhase s p).log = s.log := by
  unfold RTCManager.removePeerPcPhase
  cases h : lookupA s.peerConnections p with
  | none => rfl
  | some pc => rfl

theorem removePeerPcPhase_closedChans (s : RTCManager) (p : String)
    (x : Nat) (hx : x ∈ s.closedChans) :
    x ∈ (RTCManager.removePeerPcPhase s p).closedChans := by
  unfold RTCManager.removePeerPcPhase
  cases h : lookupA s.peerConnections p with
  | none => exact hx
  | some pc => exact List.mem_append_left _ hx

theorem removePeerPcPhase_closedPcs_some {s : RTCManager} {p : String} {pc : PC}
    (h : lookupA s.peerConnections p = some pc) :
    (RTCManager.removePeerPcPhase s p).closedPcs = s.closedPcs ++ [pc.id] := by
  unfold RTCManager.removePeerPcPhase
  rw [h]
  rfl

theorem removePeerPcPhase_dcs_some {s : RTCManager} {p : String} {pc : PC}
    (h : lookupA s.peerConnections p = some pc) (q : String) :
    lookupA (RTCManager.removePeerPcPhase s p).dataChannels q
      = (lookupA s.dataChannels q).map (RTCManager.pcCascadeChan pc.id) := by
  unfold RTCManager.removePeerPcPhase
  rw [h]
  exact lookupA_pcClose_dcs s pc.id q

theorem removePeerPcPhase_pcs_other (s : RTCManager) (p q : String) (hq : q ≠ p)
    (hsep : ∀ pc pcq, lookupA s.peerConnections p = some pc →
      lookupA s.peerConnections q = some pcq → pcq.id ≠ pc.id) :
    lookupA (RTCManager.removePeerPcPhase s p).peerConnections q
      = lookupA s.peerConnections q := by
  unfold RTCManager.removePeerPcPhase
  cases h : lookupA s.peerConnections p with
  | none => rfl
  | some pc =>
    show lookupA (delA (RTCManager.pcClose s pc.id).peerConnections p) q
      = lookupA s.peerConnections q
    rw [lookupA_delA_ne _ hq, lookupA_pcClose_pcs]
    cases h2 : lookupA s.peerConnections q with
    | none => rfl
    | some pcq =>
      rw [Option.map_some']
      rw [pcCloseObj_id_ne (hsep pc pcq h h2)]

theorem removePeerChanPhase_dcs_self (s : RTCManager) (p : String) :
    lookupA (RTCManager.removePeerChanPhase s p).dataChannels p = none := by
  unfold RTCManager.removePeerChanPhase
  cases h : lookupA s.dataChannels p with
  | none => exact h
  | some ch => exact lookupA_delA_self _ _

theorem removePeerChanPhase_pcs (s : RTCManager) (p : String) :
    (RTCManager.removePeerChanPhase s p).peerConnections = s.peerConnections := by
  unfold RTCManager.removePeerChanPhase
  cases h : lookupA s.dataChannels p with
  | none => rfl
  | some ch => rfl

theorem removePeerChanPhase_log (s : RTCManager) (p : String) :
    (RTCManager.removePeerChanPhase s p).log = s.log := by
  unfold RTCManager.removePeerChanPhase
  cases h : lookupA s.dataChannels p with
  | none => rfl
  | some ch => rfl

theorem removePeerChanPhase_closedPcs (s : RTCManager) (p : String) :
    (RTCManager.removePeerChanPhase s p).closedPcs = s.closedPcs := by
  unfold RTCManager.removePeerChanPhase
  cases h : lookupA s.dataChannels p with
  | none => rfl
  | some ch => rfl

theorem removePeerChanPhase_closedChans_some {s : RTCManager} {p : String} {ch : Chan}
    (h : lookupA s.dataChannels p = some ch) :
    (RTCManager.removePeerChanPhase s p).closedChans = s.closedChans ++ [ch.id] := by
  unfold RTCManager.removePeerChanPhase
  rw [h]
  rfl

theorem removePeerChanPhase_dcs_other (s : RTCManager) (p q : String) (hq : q ≠ p)
    (hsep : ∀ ch chq, lookupA s.dataChannels p = some ch →
      lookupA s.dataChannels q = some chq → chq.id ≠ ch.id) :
    lookupA (RTCManager.removePeerChanPhase s p).dataChannels q
      = lookupA s.dataChannels q := by
  unfold RTCManager.removePeerChanPhase
  cases h : lookupA s.dataChannels p with
  | none => rfl
  | some ch =>
    show lookupA (delA (RTCManager.chanClose s ch.id).dataChannels p) q
      = lookupA s.dataChannels q
    rw [lookupA_delA_ne _ hq, lookupA_chanClose_dcs]
    cases h2 : lookupA s.dataChannels q with
    | none => rfl
    | some chq =>
      rw [Option.map_some']
      rw [chanCloseObj_id_ne (hsep ch chq h h2)]

/-- C7: when the underlying transport reports a failed or disconnected state
for peer p, the handler removes the registry entries of p (connection and
channel), emits exactly one peerDisconnected event carrying p (right after the
connectionStateChange event), and leaves the registry entries of every other
peer id unchanged.  The separation hypotheses say that the objects registered
for other peers are distinct from those of p, as holds in every state built by
the manager operations. -/
theorem C7_disconnection (s : RTCManager) (p : String) (st : ConnState) (pc : PC)
    (hst : st = ConnState.failed ∨ st = ConnState.disconnected)
    (hpc : lookupA s.peerConnections p = some pc)
    (hpcs : ∀ e ∈ s.peerConnections, e.1 ≠ p → e.2.id ≠ pc.id)
    (hchs : ∀ e ∈ s.dataChannels, e.1 ≠ p → e.2.ownerPc ≠ pc.id
      ∧ (∀ chp, lookupA s.dataChannels p = some chp → e.2.id ≠ chp.id)) :
    lookupA (RTCManager.fireConnectionStateChange s p st).peerConnections p = none
    ∧ lookupA (RTCManager.fireConnectionStateChange s p st).dataChannels p = none
    ∧ (RTCManager.fireConnectionStateChange s p st).log
        = s.log ++ [Ev.connectionStateChange p st, Ev.peerDisconnected p]
    ∧ ((RTCManager.fireConnectionStateChange s p st).log.countP
          (fun e => e = Ev.peerDisconnected p))
        = (s.log.countP (fun e => e = Ev.peerDisconnected p)) + 1
    ∧ (∀ q, q ≠ p →
        lookupA (RTCManager.fireConnectionStateChange s p st).peerConnections q
          = lookupA s.peerConnections q
        ∧ lookupA (RTCManager.fireConnectionStateChange s p st).dataChannels q
          = lookupA s.dataChannels q) := by
  have hfire : RTCManager.fireConnectionStateChange s p st
      = RTCManager.removePeer
          (RTCManager.emitEv (RTCManager.emitEv
            { s with
                peerConnections := updA s.peerConnections p
                  (fun pc0 => { pc0 with connState := st }) }
            (Ev.connectionStateChange p st)) (Ev.peerDisconnected p)) p := by
    unfold RTCManager.fireConnectionStateChange RTCManager.handleDisconnection
    simp only [hpc]
    rw [if_pos hst]
  rw [hfire]
  unfold RTCManager.removePeer
  set s3 : RTCManager := RTCManager.emitEv (RTCManager.emitEv
      { s with
          peerConnections := updA s.peerConnections p
            (fun pc0 => { pc0 with connState := st }) }
      (Ev.connectionStateChange p st)) (Ev.peerDisconnected p) with hs3
  have h3pcs : s3.peerConnections
      = updA s.peerConnections p (fun pc0 => { pc0 with connState := st }) := by
    rw [hs3]
    rfl
  have h3dcs : s3.dataChannels = s.dataChannels := by
    rw [hs3]
    rfl
  have h3log : s3.log
      = s.log ++ [Ev.connectionStateChange p st, Ev.peerDisconnected p] := by
    rw [hs3]
    show (s.log ++ [Ev.connectionStateChange p st]) ++ [Ev.peerDisconnected p] = _
    rw [List.append_assoc]
    rfl
  have hpc1 : lookupA s3.peerConnections p = some { pc with connState := st } := by
    rw [h3pcs, lookupA_updA_self, hpc]
    rfl
  set u : RTCManager := RTCManager.removePeerPcPhase s3 p with hu
  have hudcs : ∀ r, lookupA u.dataChannels r
      = (lookupA s.dataChannels r).map (RTCManager.pcCascadeChan pc.id) := by
    intro r
    have h := removePeerPcPhase_dcs_some hpc1 r
    rw [h3dcs] at h
    exact h
  have hupcs_other : ∀ q, q ≠ p →
      lookupA u.peerConnections q = lookupA s.peerConnections q := by
    intro q hq
    have hq3 : lookupA s3.peerConnections q = lookupA s.peerConnections q := by
      rw [h3pcs]
      exact lookupA_updA_ne _ hq _
    have hsep3 : ∀ pc' pcq, lookupA s3.peerConnections p = some pc' →
        lookupA s3.peerConnections q = some pcq → pcq.id ≠ pc'.id := by
      intro pc' pcq hp' hq'
      rw [hpc1] at hp'
      injection hp' with hp'
      rw [hq3] at hq'
      have hmem := lookupA_mem hq'
      have hid := hpcs _ hmem hq
      rw [← hp']
      exact hid
    rw [hu]
    rw [removePeerPcPhase_pcs_other s3 p q hq hsep3, hq3]
  have hres_pcs : (RTCManager.removePeerChanPhase u p).peerConnections
      = u.peerConnections := removePeerChanPhase_pcs u p
  have hres_log : (RTCManager.removePeerChanPhase u p).log
      = s.log ++ [Ev.connectionStateChange p st, Ev.peerDisconnected p] := by
    rw [removePeerChanPhase_log, hu, removePeerPcPhase_log, h3log]
  refine ⟨?_, ?_, hres_log, ?_, ?_⟩
  · rw [hres_pcs, hu]
    exact removePeerPcPhase_pcs_self s3 p
  · exact removePeerChanPhase_dcs_self u p
  · rw [hres_log, List.countP_append]
    simp
  · intro q hq
    refine ⟨?_, ?_⟩
    · rw [hres_pcs]
      exact hupcs_other q hq
    · have hsepc : ∀ ch chq, lookupA u.dataChannels p = some ch →
          lookupA u.dataChannels q = some chq → chq.id ≠ ch.id := by
        intro ch chq hchp hchq
        rw [hudcs p] at hchp
        rw [hudcs q] at hchq
        cases hsp : lookupA s.dataChannels p with
        | none =>
          rw [hsp] at hchp
          exact absurd hchp (by simp)
        | some chp =>
          rw [hsp] at hchp
          cases hsq : lookupA s.dataChannels q with
          | none =>
            rw [hsq] at hchq
            exact absurd hchq (by simp)
          | some chq0 =>
            rw [hsq] at hchq
            rw [Option.map_some'] at hchp hchq
            injection hchp with hchp
            injection hchq with hchq
            have hmem := lookupA_mem hsq
            have hid := (hchs _ hmem hq).2 chp hsp
            rw [← hchq, ← hchp, pcCascadeChan_id, pcCascadeChan_id]
            exact hid
      rw [removePeerChanPhase_dcs_other u p q hq hsepc]
      rw [hudcs q]
      cases hsq : lookupA s.dataChannels q with
      | none => rfl
      | some chq0 =>
        rw [Option.map_some']
        rw [pcCascadeChan_owner_ne ((hchs _ (lookupA_mem hsq) hq).1)]

/-- C7 witness: in the two-peer state, a failed transport report for peer a
removes both registry entries of a, logs exactly the connectionStateChange and
peerDisconnected events, and leaves the entries of peer b untouched. -/
theorem C7_witness :
    lookupA (RTCManager.fireConnectionStateChange wMgr "a"
        ConnState.failed).peerConnections "a" = none
    ∧ lookupA (RTCManager.fireConnectionStateChange wMgr "a"
        ConnState.failed).dataChannels "a" = none
    ∧ (RTCManager.fireConnectionStateChange wMgr "a" ConnState.failed).log
        = wMgr.log ++ [Ev.connectionStateChange "a" ConnState.failed, Ev.peerDisconnected "a"]
    ∧ lookupA (RTCManager.fireConnectionStateChange wMgr "a"
        ConnState.failed).peerConnections "b" = lookupA wMgr.peerConnections "b"
    ∧ lookupA (RTCManager.fireConnectionStateChange wMgr "a"
        ConnState.failed).dataChannels "b" = lookupA wMgr.dataChannels "b" := by
  have h := C7_disconnection wMgr "a" ConnState.failed wPcA (Or.inl rfl) rfl
    (by decide) (by decide)
  exact ⟨h.1, h.2.1, h.2.2.1, (h.2.2.2.2 "b" (by decide)).1, (h.2.2.2.2 "b" (by decide)).2⟩

/-! Lemmas for closeAll: the fold of pcClose over the registered connections. -/

theorem pcClose_closedPcs_mono (s : RTCManager) (y x : Nat) (hx : x ∈ s.closedPcs) :
    x ∈ (RTCManager.pcClose s y).closedPcs := List.mem_append_left _ hx

theorem pcClose_closedChans_mono (s : RTCManager) (y x : Nat) (hx : x ∈ s.closedChans) :
    x ∈ (RTCManager.pcClose s y).closedChans := List.mem_append_left _ hx

theorem pcClose_self_tomb (s : RTCManager) (y : Nat) :
    y ∈ (RTCManager.pcClose s y).closedPcs :=
  List.mem_append_right _ (List.mem_singleton.mpr rfl)

theorem pcClose_cascade_tomb (s : RTCManager) (y : Nat) {e : String × Chan}
    (he : e ∈ s.dataChannels) (how : e.2.ownerPc = y) :
    e.2.id ∈ (RTCManager.pcClose s y).closedChans := by
  refine List.mem_append_right _ ?_
  exact List.mem_map_of_mem _ (List.mem_filter.mpr ⟨he, by simp [how]⟩)

theorem pcClose_dcs_entry (s : RTCManager) (y : Nat) {e : String × Chan}
    (he : e ∈ s.dataChannels) :
    (e.1, RTCManager.pcCascadeChan y e.2) ∈ (RTCManager.pcClose s y).dataChannels :=
  List.mem_map_of_mem _ he

theorem foldClose_closedPcs_mono (l : List (String × PC)) :
    ∀ (s : RTCManager) (x : Nat), x ∈ s.closedPcs →
      x ∈ (l.foldl (fun acc e => RTCManager.pcClose acc e.2.id) s).closedPcs := by
  induction l with
  | nil => intro s x hx; exact hx
  | cons hd tl ih =>
    intro s x hx
    exact ih _ x (pcClose_closedPcs_mono s hd.2.id x hx)

theorem foldClose_closedChans_mono (l : List (String × PC)) :
    ∀ (s : RTCManager) (x : Nat), x ∈ s.closedChans →
      x ∈ (l.foldl (fun acc e => RTCManager.pcClose acc e.2.id) s).closedChans := by
  induction l with
  | nil => intro s x hx; exact hx
  | cons hd tl ih =>
    intro s x hx
    exact ih _ x (pcClose_closedChans_mono s hd.2.id x hx)

theorem foldClose_tomb_pcs (l : List (String × PC)) :
    ∀ (s : RTCManager), ∀ e ∈ l,
      e.2.id ∈ (l.foldl (fun acc e => RTCManager.pcClose acc e.2.id) s).closedPcs := by
  induction l with
  | nil =>
    intro s e he
    cases he
  | cons hd tl ih =>
    intro s e he
    rcases List.mem_cons.mp he with h | h
    · subst h
      exact foldClose_closedPcs_mono tl _ _ (pcClose_self_tomb s e.2.id)
    · exact ih (RTCManager.pcClose s hd.2.id) e h

theorem foldClose_tomb_chans (l : List (String × PC)) :
    ∀ (s : RTCManager) (ce : String × Chan), ce ∈ s.dataChannels →
      (∃ e ∈ l, e.2.id = ce.2.ownerPc) →
      ce.2.id ∈ (l.foldl (fun acc e => RTCManager.pcClose acc e.2.id) s).closedChans := by
  induction l with
  | nil =>
    intro s ce hce hex
    rcases hex with ⟨e, he, _⟩
    cases he
  | cons hd tl ih =>
    intro s ce hce hex
    rcases hex with ⟨e, he, hid⟩
    rcases List.mem_cons.mp he with h | h
    · subst h
      exact foldClose_closedChans_mono tl _ _ (pcClose_cascade_tomb s e.2.id hce hid.symm)
    · have hce2 : (ce.1, RTCManager.pcCascadeChan hd.2.id ce.2)
          ∈ (RTCManager.pcClose s hd.2.id).dataChannels :=
        pcClose_dcs_entry s hd.2.id hce
      have h2 := ih (RTCManager.pcClose s hd.2.id)
        (ce.1, RTCManager.pcCascadeChan hd.2.id ce.2) hce2
        ⟨e, h, by rw [pcCascadeChan_ownerPc]; exact hid⟩
      rw [pcCascadeChan_id] at h2
      exact h2

/-- C8 counterexample: a state reached purely through the manager operations —
create a connection for peer a, create its data channel, then call
createPeerConnection for a again (silent overwrite, see the C3 correction).
The registered channel (allocation id 1) is owned by the replaced connection
(allocation id 0), which is no longer registered.  closeAll then empties both
registries but closes only the registered connection (id 2); it never calls
channel.close(), and the close cascade of connection 2 does not reach channel 1,
so channel 1 is never closed (no close tombstone exists for it) — refuting the
claim that removeAll leaves every channel closed. -/
theorem C8_counterexample :
    lookupA c8s3.dataChannels "a"
      = some { id := 1, ownerPc := 0, readyState := RState.connecting, sent := [] }
    ∧ (lookupA c8s3.peerConnections "a").map PC.id = some 2
    ∧ (RTCManager.closeAll c8s3).peerConnections = []
    ∧ (RTCManager.closeAll c8s3).dataChannels = []
    ∧ (1 : Nat) ∉ (RTCManager.closeAll c8s3).closedChans :=
  ⟨rfl, rfl, rfl, rfl, by decide⟩

/-- C8 corrected claim: removePeer closes the registered connection and channel
of the peer and deletes both registry entries, unconditionally (the close
tombstones record the closures; the platform close operations cannot throw, so
the swallow-errors clause is vacuously met).  closeAll closes every registered
connection and leaves both registries empty, and every registered channel WHOSE
OWNING CONNECTION IS STILL REGISTERED is closed by the platform close cascade;
closeAll itself never calls channel.close(), so a registered channel orphaned
by a createPeerConnection overwrite is left unclosed (see the counterexample). -/
theorem C8_remove_and_closeAll_spec (s : RTCManager) (p : String) :
    (∀ pc ch, lookupA s.peerConnections p = some pc →
      lookupA s.dataChannels p = some ch →
      lookupA (RTCManager.removePeer s p).peerConnections p = none
      ∧ lookupA (RTCManager.removePeer s p).dataChannels p = none
      ∧ pc.id ∈ (RTCManager.removePeer s p).closedPcs
      ∧ ch.id ∈ (RTCManager.removePeer s p).closedChans)
    ∧ ((∀ e ∈ s.dataChannels, ∃ e2 ∈ s.peerConnections, e2.2.id = e.2.ownerPc) →
      (RTCManager.closeAll s).peerConnections = []
      ∧ (RTCManager.closeAll s).dataChannels = []
      ∧ (∀ e ∈ s.peerConnections, e.2.id ∈ (RTCManager.closeAll s).closedPcs)
      ∧ (∀ e ∈ s.dataChannels, e.2.id ∈ (RTCManager.closeAll s).closedChans)) := by
  constructor
  · intro pc ch hpc hch
    unfold RTCManager.removePeer
    set u := RTCManager.removePeerPcPhase s p with hu
    have hchu : lookupA u.dataChannels p
        = some (RTCManager.pcCascadeChan pc.id ch) := by
      rw [hu, removePeerPcPhase_dcs_some hpc p, hch]
      rfl
    refine ⟨?_, ?_, ?_, ?_⟩
    · rw [removePeerChanPhase_pcs, hu]
      exact removePeerPcPhase_pcs_self s p
    · exact removePeerChanPhase_dcs_self u p
    · rw [removePeerChanPhase_closedPcs, hu, removePeerPcPhase_closedPcs_some hpc]
      exact List.mem_append_right _ (List.mem_singleton.mpr rfl)
    · rw [removePeerChanPhase_closedChans_some hchu, pcCascadeChan_id]
      exact List.mem_append_right _ (List.mem_singleton.mpr rfl)
  · intro hwf
    refine ⟨rfl, rfl, ?_, ?_⟩
    · intro e he
      exact foldClose_tomb_pcs s.peerConnections s e he
    · intro e he
      rcases hwf e he with ⟨e2, he2, hid⟩
      exact foldClose_tomb_chans s.peerConnections s e he ⟨e2, he2, hid⟩

/-- C8 witness: removing peer a from the two-peer state empties the entries of
a and tombstones the closures of its connection and channel; closeAll on the
three-peer state empties both registries and closes every connection and every
channel, including the channel of peer c that closeAll never visits directly. -/
theorem C8_witness :
    lookupA (RTCManager.removePeer wMgr "a").peerConnections "a" = none
    ∧ wPcA.id ∈ (RTCManager.removePeer wMgr "a").closedPcs
    ∧ wChA.id ∈ (RTCManager.removePeer wMgr "a").closedChans
    ∧ (RTCManager.closeAll wMgr3).peerConnections = []
    ∧ (RTCManager.closeAll wMgr3).dataChannels = []
    ∧ wChC.id ∈ (RTCManager.closeAll wMgr3).closedChans := by
  have h1 := (C8_remove_and_closeAll_spec wMgr "a").1 wPcA wChA rfl rfl
  have h2 := (C8_remove_and_closeAll_spec wMgr3 "x").2 (by decide)
  exact ⟨h1.1, h1.2.2.1, h1.2.2.2, h2.1, h2.2.1, h2.2.2.2 ("c", wChC) (by decide)⟩
